import Mathlib

/-!
Shallow embedding of the core logic of the nba-game-recommender repository:
the buzz scorer (`src/core/buzz_scorer.py`), the backup data-provider adapter
(`src/api/balldontlie_client.py`), the REST handler validation
(`src/interfaces/api_server.py`), the web layer's error-code to HTTP-status
mapping (`src/interfaces/web/app.py`), and the primary adapter's lead-change
counter (modelled from the spec, since `src/api/nba_client.py` is not present
in the source tree).

Python integers are embedded as `Int`, Python floats as `ℚ` (all values the
program manipulates are exact decimals), dictionaries as association lists,
and raising/fallible code as `Option`/`Except`.
-/

namespace NbaRec

/-- JSON values, as produced by `json.loads`: the buzz provider's decoded
reply is a JSON object mapping game ids to entries. -/
inductive JsonVal where
  | null
  | bool (b : Bool)
  | num (q : ℚ)
  | str (s : String)
  | arr (elems : List JsonVal)
  | obj (fields : List (String × JsonVal))

/-- Python truth: `isinstance(entry, dict)`. -/
def JsonVal.isDict : JsonVal → Bool
  | .obj _ => true
  | _ => false

/-- Lookup of `fields.get(key, default)` on a decoded JSON object, embedded as
an association list (first binding wins; the concrete objects built below have
distinct keys, matching `json.loads` output). -/
def dictGetD (fields : List (String × JsonVal)) (key : String) (dflt : JsonVal) : JsonVal :=
  match fields.lookup key with
  | some v => v
  | none => dflt

namespace BuzzScorer

/-- Constant `MAX_BUZZ_SCORE = 40` from `src/core/buzz_scorer.py`. -/
def MAX_BUZZ_SCORE : ℚ := 40

/-- Numeric value of a digit list, `none` when empty or not all digits. -/
def digitsVal? (cs : List Char) : Option Nat :=
  if cs = [] then none
  else if cs.all Char.isDigit then
    some (cs.foldl (fun n c => 10 * n + (c.toNat - 48)) 0)
  else none

/-- Python `float(s)` on plain decimal string literals (optional sign, digits,
optional fractional part with digits on both sides of the dot); `none` models
the `ValueError` raised on anything else. Exponents, `inf`/`nan` and
surrounding whitespace are outside the domain any claim exercises. -/
def strToFloat? (s : String) : Option ℚ :=
  let cs := s.toList
  let signAndRest : ℚ × List Char :=
    match cs with
    | '-' :: r => (-1, r)
    | '+' :: r => (1, r)
    | r => (1, r)
  let sign := signAndRest.1
  let rest := signAndRest.2
  let intPart := rest.takeWhile (fun c => c ≠ '.')
  match rest.dropWhile (fun c => c ≠ '.') with
  | [] => (digitsVal? intPart).map (fun n => sign * n)
  | '.' :: frac =>
    match digitsVal? intPart, digitsVal? frac with
    | some a, some b => some (sign * ((a : ℚ) + (b : ℚ) / (10 ^ frac.length)))
    | _, _ => none
  | _ => none

/-- Python `float(x)` on a decoded JSON value: numbers convert, booleans
convert to 0/1, strings parse as decimals, and everything else
(`None`, lists, dicts) raises (`none`). -/
def pyFloat : JsonVal → Option ℚ
  | .num q => some q
  | .bool b => some (if b then 1 else 0)
  | .str s => strToFloat? s
  | _ => none

/-- Input game dict as consumed by `BuzzScorer.score_games` and
`BuzzScorer._parse_response`; of its fields only `game_id` is read by the
score-mapping logic (the other fields feed only the prompt text). -/
structure PyGame where
  game_id : String
  deriving Repr, DecidableEq

/-- One buzz entry `{"score": ..., "reasoning": ...}` of the returned mapping.
The reasoning is stored back verbatim (`entry.get("reasoning", "")` keeps
whatever JSON value is present), so it stays a `JsonVal`. -/
structure BuzzResult where
  score : ℚ
  reasoning : JsonVal

/-- All-zero mapping `{g["game_id"]: {"score": 0, "reasoning": ""} for g in games}`. -/
def zeroEntries (games : List PyGame) : List (String × BuzzResult) :=
  games.map (fun g => (g.game_id, ⟨0, .str ""⟩))

/-- Raw score field `entry.get("score", 0) if isinstance(entry, dict) else 0`. -/
def entryScore (entry : JsonVal) : JsonVal :=
  match entry with
  | .obj fields => dictGetD fields "score" (.num 0)
  | _ => .num 0

/-- Reasoning field `entry.get("reasoning", "") if isinstance(entry, dict) else ""`. -/
def entryReasoning (entry : JsonVal) : JsonVal :=
  match entry with
  | .obj fields => dictGetD fields "reasoning" (.str "")
  | _ => .str ""

/-- One iteration of the validate-and-clamp loop of `_parse_response`:
`entry = scores.get(gid, {})`, raw score and reasoning extraction, then
`max(0, min(MAX_BUZZ_SCORE, float(raw_score)))`; `none` models the
`ValueError`/`TypeError` that `float` raises on a malformed score field. -/
def clampEntry (scores : List (String × JsonVal)) (g : PyGame) : Option (String × BuzzResult) :=
  match pyFloat (entryScore (dictGetD scores g.game_id (.obj []))) with
  | none => none
  | some fl =>
    some (g.game_id,
      ⟨max 0 (min MAX_BUZZ_SCORE fl), entryReasoning (dictGetD scores g.game_id (.obj []))⟩)

/-- Validate-and-clamp loop of `_parse_response` over the whole input batch;
`none` when any game's score field makes `float` raise, aborting the loop. -/
def collectEntries (scores : List (String × JsonVal)) : List PyGame → Option (List (String × BuzzResult))
  | [] => some []
  | g :: rest =>
    match clampEntry scores g, collectEntries scores rest with
    | some e, some tail => some (e :: tail)
    | _, _ => none

/-- Decoded state `_parse_response` reaches after text extraction:
`none` when the response had no text block or the extracted candidate failed
`json.loads` (both handled locally by returning the zero mapping);
`some scores` when a top-level JSON object was decoded. -/
def parse_response (decoded : Option (List (String × JsonVal))) (games : List PyGame) :
    Option (List (String × BuzzResult)) :=
  match decoded with
  | none => some (zeroEntries games)
  | some scores => collectEntries scores games

/-- Outcome of `_call_claude` up to response decoding: `raised` is any
exception in the API interaction; `responded decoded` is a returned response
whose text decoded (or failed to decode) as in `parse_response`. -/
inductive ProviderOutcome where
  | raised
  | responded (decoded : Option (List (String × JsonVal)))

/-- Embedding of `BuzzScorer.score_games`: no credential ⇒ zero mapping over
the inputs; empty batch ⇒ empty mapping; then the provider call in a
`try`/`except` whose handler returns the zero mapping (this also catches a
`float` error escaping `_parse_response`). -/
def score_games (available : Bool) (outcome : ProviderOutcome) (games : List PyGame) :
    List (String × BuzzResult) :=
  if available = false then zeroEntries games
  else if games.isEmpty then []
  else
    match outcome with
    | .raised => zeroEntries games
    | .responded decoded =>
      match parse_response decoded games with
      | some m => m
      | none => zeroEntries games

end BuzzScorer

namespace BallDontLieClient

/-- Upstream team object of the BallDontLie `games` endpoint (the fields the
adapter reads: `full_name`, `abbreviation`). -/
structure BdlTeam where
  full_name : String
  abbreviation : String
  deriving Repr, DecidableEq

/-- Upstream game object of the BallDontLie `games` endpoint, restricted to
the fields `_get_games_by_date` reads. -/
structure BdlGame where
  id : Int
  status : String
  home_team : BdlTeam
  visitor_team : BdlTeam
  home_team_score : Int
  visitor_team_score : Int
  deriving Repr, DecidableEq

/-- Per-team part of the normalized game dict built by the adapter. -/
structure TeamInfo where
  name : String
  abbr : String
  score : Int
  deriving Repr, DecidableEq

/-- Normalized game dict (`game_info`) built by `_get_games_by_date`. -/
structure GameInfo where
  game_id : String
  game_date : String
  home_team : TeamInfo
  away_team : TeamInfo
  total_points : Int
  final_margin : Int
  lead_changes : Int
  star_players_count : Int
  deriving Repr, DecidableEq

/-- Embedding of `BallDontLieClient._estimate_lead_changes`: stepped heuristic
on the final margin. -/
def estimate_lead_changes (home_score visitor_score : Int) : Int :=
  let margin := |home_score - visitor_score|
  if margin ≤ 3 then 15
  else if margin ≤ 5 then 10
  else if margin ≤ 10 then 5
  else if margin ≤ 15 then 2
  else 0

/-- Construction of `game_info` from one upstream game object, exactly as in
the loop body of `_get_games_by_date` (lines 84-109 of
`src/api/balldontlie_client.py`). -/
def toGameInfo (game_date : String) (g : BdlGame) : GameInfo :=
  { game_id := toString g.id
    game_date := game_date
    home_team := ⟨g.home_team.full_name, g.home_team.abbreviation, g.home_team_score⟩
    away_team := ⟨g.visitor_team.full_name, g.visitor_team.abbreviation, g.visitor_team_score⟩
    total_points := g.home_team_score + g.visitor_team_score
    final_margin := |g.home_team_score - g.visitor_team_score|
    lead_changes := estimate_lead_changes g.home_team_score g.visitor_team_score
    star_players_count := 0 }

/-- Loop of `_get_games_by_date` over `data.get('data', [])`: skip
(`continue`) games whose status is not `'Final'`, append the normalized
record for the rest. -/
def gamesFromData (game_date : String) : List BdlGame → List GameInfo
  | [] => []
  | g :: rest =>
    if g.status ≠ "Final" then gamesFromData game_date rest
    else toGameInfo game_date g :: gamesFromData game_date rest

/-- Embedding of `BallDontLieClient._get_games_by_date`: `outcome` is the
HTTP request plus JSON decoding (`Except.error` for any raised exception —
timeout, non-2xx status, bad JSON — which the `except` handler logs and turns
into `[]`; `Except.ok data` for a decoded list of game objects). -/
def get_games_by_date (game_date : String) (outcome : Except Unit (List BdlGame)) :
    List GameInfo :=
  match outcome with
  | .error _ => []
  | .ok data => gamesFromData game_date data

end BallDontLieClient

namespace NBAClient

/-- Modelled from the spec: the primary adapter's source file
(`src/api/nba_client.py`, class `NBAClient`) is not present under the source
tree — only its unit tests are — so `_calculate_lead_changes` is reconstructed
from the spec's lead-change counting algorithm: scan the chronological score
snapshots, track the current strict leader (home/away/none), and count only
transitions from one strict leader to the other; ties are skipped and the
first strict lead is not counted. `snapshotLeader` gives the strict leader of
one snapshot (`true` = home, `false` = away, `none` = tie). -/
def snapshotLeader (homeScore awayScore : Int) : Option Bool :=
  if homeScore > awayScore then some true
  else if awayScore > homeScore then some false
  else none

/-- Modelled from the spec: the scanning loop of `_calculate_lead_changes` —
carry the last strict leader and the running count; a tied snapshot leaves the
carried leader unchanged; a strict leader different from a previously carried
strict leader increments the count. -/
def leadLoop : Option Bool → Nat → List (Int × Int) → Nat
  | _, count, [] => count
  | carried, count, (h, a) :: rest =>
    match snapshotLeader h a with
    | none => leadLoop carried count rest
    | some L =>
      match carried with
      | none => leadLoop (some L) count rest
      | some prev => leadLoop (some L) (if prev = L then count else count + 1) rest

/-- Modelled from the spec: `NBAClient._calculate_lead_changes(actions)` on a
chronological list of `(homeScore, awayScore)` snapshots. -/
def calculate_lead_changes (actions : List (Int × Int)) : Nat :=
  leadLoop none 0 actions

/-- Specification-side characterization: the subsequence of strict leaders of
the snapshot list (ties dropped). -/
def strictLeaders (actions : List (Int × Int)) : List Bool :=
  actions.filterMap (fun p => snapshotLeader p.1 p.2)

/-- Specification-side characterization: number of adjacent changes in a list
of strict leaders — exactly the transitions from one strict leader to the
other, with the first strict lead contributing nothing. -/
def leaderTransitions : List Bool → Nat
  | a :: b :: rest => (if a = b then 0 else 1) + leaderTransitions (b :: rest)
  | _ => 0

end NBAClient

namespace ApiServer

/-- HTTP-level result of the `/api/best-game` handler: an error JSON body
with its status code, or a success payload with status 200. -/
inductive BestGameResponse (R : Type) where
  | errorResp (message : String) (status : Nat)
  | okResp (data : R) (status : Nat)
  deriving DecidableEq

/-- Embedding of the `/api/best-game` handler of
`src/interfaces/api_server.py` for an integer `days` query parameter:
validate `days` (reject outside 1..30 with a 400 before any upstream work),
then call `recommender.get_best_game` — embedded as the function argument
`recommend`, returning `Except.error` when it raises (the outer handler turns
that into a 500), `Except.ok none` when it returns a falsy result (404), and
`Except.ok (some r)` on success. -/
def get_best_game {R : Type} (days : Int) (favorite_team : Option String)
    (recommend : Int → Option String → Except String (Option R)) : BestGameResponse R :=
  if days < 1 ∨ days > 30 then .errorResp "Days must be between 1 and 30" 400
  else
    match recommend days favorite_team with
    | .error e => .errorResp e 500
    | .ok none => .errorResp "No games found" 404
    | .ok (some r) => .okResp r 200

end ApiServer

namespace WebApp

/-- Embedding of the error-code to HTTP-status mapping of the `/recommend`
handler in `src/interfaces/web/app.py` (applied when the service response has
`success = False`). -/
def errorStatus (error_code : String) : Nat :=
  if error_code == "VALIDATION_ERROR" then 400
  else if error_code == "NO_GAMES" then 404
  else if error_code == "NBA_API_TIMEOUT" then 503
  else 500

end WebApp

/-- Concrete upstream game object: the first fixture of
`tests/unit/test_balldontlie_client.py` (LAL 118 - BOS 115, Final). -/
def sampleFinalGame : BallDontLieClient.BdlGame :=
  ⟨123456, "Final", ⟨"Los Angeles Lakers", "LAL"⟩, ⟨"Boston Celtics", "BOS"⟩, 118, 115⟩

/-- Concrete upstream game object with non-final status (in progress), as in
`test_get_games_filters_non_final_games`. -/
def sampleLiveGame : BallDontLieClient.BdlGame :=
  ⟨123458, "1st Qtr", ⟨"Miami Heat", "MIA"⟩, ⟨"Chicago Bulls", "CHI"⟩, 50, 48⟩

/-- Concrete decoded provider reply in which game `g1` has a malformed
(non-numeric, `float`-rejecting) score field and game `g2` a well-formed
score of 20. -/
def malformedBatchScores : List (String × JsonVal) :=
  [("g1", .obj [("score", .null)]),
   ("g2", .obj [("score", .num 20), ("reasoning", .str "fine")])]

/-- Concrete two-game input batch matching `malformedBatchScores`. -/
def malformedBatchGames : List BuzzScorer.PyGame := [⟨"g1"⟩, ⟨"g2"⟩]

/-- Concrete decoded provider reply in which game `g1` has a malformed entry
that is not a JSON object (so its raw score defaults to 0 without raising)
and game `g2` a well-formed entry with score 20. -/
def isolatedBatchScores : List (String × JsonVal) :=
  [("g1", .str "oops"),
   ("g2", .obj [("score", .num 20), ("reasoning", .str "fine")])]

/-- Concrete two-game input batch matching `isolatedBatchScores`. -/
def isolatedBatchGames : List BuzzScorer.PyGame := [⟨"g1"⟩, ⟨"g2"⟩]

/-- Mapping the parse loop produces on `isolatedBatchScores` and
`isolatedBatchGames`: `g1` degraded to the default entry, `g2` keeping its
response score 20. -/
def isolatedBatchResult : List (String × BuzzScorer.BuzzResult) :=
  [("g1", ⟨0, .str ""⟩), ("g2", ⟨20, .str "fine"⟩)]

namespace NBAClient

lemma strictLeaders_cons (h a : Int) (rest : List (Int × Int)) :
    strictLeaders ((h, a) :: rest) =
      match snapshotLeader h a with
      | none => strictLeaders rest
      | some L => L :: strictLeaders rest := by
  unfold strictLeaders
  rw [List.filterMap_cons]
  cases snapshotLeader h a <;> rfl

lemma leadLoop_some (actions : List (Int × Int)) :
    ∀ (c : Bool) (count : Nat),
      leadLoop (some c) count actions = count + leaderTransitions (c :: strictLeaders actions) := by
  induction actions with
  | nil => intro c count; simp [leadLoop, strictLeaders, leaderTransitions]
  | cons p rest ih =>
    intro c count
    obtain ⟨h, a⟩ := p
    rw [strictLeaders_cons]
    cases hs : snapshotLeader h a with
    | none => simp only [leadLoop, hs]; exact ih c count
    | some L =>
      simp only [leadLoop, hs]
      rw [ih L]
      by_cases hcL : c = L
      · simp [hcL, leaderTransitions]
      · simp only [hcL, if_false, leaderTransitions, if_neg hcL]
        omega

lemma leadLoop_none (actions : List (Int × Int)) :
    ∀ count : Nat,
      leadLoop none count actions = count + leaderTransitions (strictLeaders actions) := by
  induction actions with
  | nil => intro count; simp [leadLoop, strictLeaders, leaderTransitions]
  | cons p rest ih =>
    intro count
    obtain ⟨h, a⟩ := p
    rw [strictLeaders_cons]
    cases hs : snapshotLeader h a with
    | none => simp only [leadLoop, hs]; exact ih count
    | some L => simp only [leadLoop, hs]; exact leadLoop_some rest L count

end NBAClient

namespace BuzzScorer

lemma clampEntry_bounds (scores : List (String × JsonVal)) (g : PyGame) (gid : String)
    (r : BuzzResult) (hc : clampEntry scores g = some (gid, r)) :
    0 ≤ r.score ∧ r.score ≤ MAX_BUZZ_SCORE := by
  unfold clampEntry at hc
  cases hf : pyFloat (entryScore (dictGetD scores g.game_id (.obj []))) with
  | none => rw [hf] at hc; exact absurd hc (by simp)
  | some fl =>
    rw [hf] at hc
    simp only [Option.some.injEq, Prod.mk.injEq] at hc
    obtain ⟨-, hr⟩ := hc
    subst hr
    constructor
    · exact le_max_left 0 _
    · exact max_le (by norm_num [MAX_BUZZ_SCORE]) (min_le_left _ _)

lemma clampEntry_key (scores : List (String × JsonVal)) (g : PyGame) (gid : String)
    (r : BuzzResult) (hc : clampEntry scores g = some (gid, r)) : gid = g.game_id := by
  unfold clampEntry at hc
  cases hf : pyFloat (entryScore (dictGetD scores g.game_id (.obj []))) with
  | none => rw [hf] at hc; exact absurd hc (by simp)
  | some fl =>
    rw [hf] at hc
    simp only [Option.some.injEq, Prod.mk.injEq] at hc
    exact hc.1.symm

lemma collectEntries_bounds (scores : List (String × JsonVal)) :
    ∀ (games : List PyGame) (m : List (String × BuzzResult)),
      collectEntries scores games = some m →
      ∀ p ∈ m, 0 ≤ p.2.score ∧ p.2.score ≤ MAX_BUZZ_SCORE := by
  intro games
  induction games with
  | nil =>
    intro m hm p hp
    unfold collectEntries at hm
    injection hm with hm
    subst hm
    exact absurd hp (by simp)
  | cons g rest ih =>
    intro m hm p hp
    unfold collectEntries at hm
    cases hc : clampEntry scores g with
    | none => rw [hc] at hm; exact absurd hm (by simp)
    | some e =>
      rw [hc] at hm
      cases ht : collectEntries scores rest with
      | none => rw [ht] at hm; exact absurd hm (by simp)
      | some tail =>
        rw [ht] at hm
        simp only [Option.some.injEq] at hm
        subst hm
        rcases List.mem_cons.mp hp with hpe | hpt
        · subst hpe
          exact clampEntry_bounds scores g p.1 p.2 (by rw [Prod.mk.eta]; exact hc)
        · exact ih tail ht p hpt

lemma zeroEntries_score (games : List PyGame) :
    ∀ p ∈ zeroEntries games, p.2.score = 0 := by
  intro p hp
  unfold zeroEntries at hp
  obtain ⟨g, -, hg⟩ := List.mem_map.mp hp
  subst hg
  rfl

lemma zeroEntries_keys (games : List PyGame) :
    (zeroEntries games).map Prod.fst = games.map PyGame.game_id := by
  unfold zeroEntries
  rw [List.map_map]
  rfl

lemma collectEntries_keys (scores : List (String × JsonVal)) :
    ∀ (games : List PyGame) (m : List (String × BuzzResult)),
      collectEntries scores games = some m →
      m.map Prod.fst = games.map PyGame.game_id := by
  intro games
  induction games with
  | nil =>
    intro m hm
    unfold collectEntries at hm
    injection hm with hm
    subst hm
    rfl
  | cons g rest ih =>
    intro m hm
    unfold collectEntries at hm
    cases hc : clampEntry scores g with
    | none => rw [hc] at hm; exact absurd hm (by simp)
    | some e =>
      rw [hc] at hm
      cases ht : collectEntries scores rest with
      | none => rw [ht] at hm; exact absurd hm (by simp)
      | some tail =>
        rw [ht] at hm
        simp only [Option.some.injEq] at hm
        subst hm
        simp only [List.map_cons]
        rw [ih tail ht, clampEntry_key scores g e.1 e.2 (by rw [Prod.mk.eta]; exact hc)]

lemma collectEntries_abort (scores : List (String × JsonVal)) :
    ∀ (games : List PyGame) (g : PyGame), g ∈ games →
      clampEntry scores g = none → collectEntries scores games = none := by
  intro games
  induction games with
  | nil => intro g hg; exact absurd hg (by simp)
  | cons g0 rest ih =>
    intro g hg hc
    rcases List.mem_cons.mp hg with hge | hgt
    · subst hge; unfold collectEntries; rw [hc]
    · unfold collectEntries
      rw [ih g hgt hc]
      cases clampEntry scores g0 <;> rfl

lemma clampEntry_nonDict (scores : List (String × JsonVal)) (g : PyGame)
    (hd : (dictGetD scores g.game_id (.obj [])).isDict = false) :
    clampEntry scores g = some (g.game_id, ⟨0, .str ""⟩) := by
  have hsc : entryScore (dictGetD scores g.game_id (.obj [])) = .num 0 := by
    unfold entryScore
    cases hval : dictGetD scores g.game_id (.obj []) with
    | obj fields => rw [hval] at hd; simp [JsonVal.isDict] at hd
    | null => rfl
    | bool b => rfl
    | num q => rfl
    | str s => rfl
    | arr elems => rfl
  have hre : entryReasoning (dictGetD scores g.game_id (.obj [])) = .str "" := by
    unfold entryReasoning
    cases hval : dictGetD scores g.game_id (.obj []) with
    | obj fields => rw [hval] at hd; simp [JsonVal.isDict] at hd
    | null => rfl
    | bool b => rfl
    | num q => rfl
    | str s => rfl
    | arr elems => rfl
  unfold clampEntry
  rw [hsc, hre]
  have hmax : max (0 : ℚ) (min MAX_BUZZ_SCORE 0) = 0 := by
    norm_num [MAX_BUZZ_SCORE]
  simp [pyFloat, hmax]

lemma clampEntry_numScore (scores : List (String × JsonVal)) (g : PyGame) (q : ℚ)
    (hq : entryScore (dictGetD scores g.game_id (.obj [])) = .num q) :
    clampEntry scores g
      = some (g.game_id,
          ⟨max 0 (min MAX_BUZZ_SCORE q),
           entryReasoning (dictGetD scores g.game_id (.obj []))⟩) := by
  unfold clampEntry
  rw [hq]
  rfl

lemma collectEntries_member (scores : List (String × JsonVal)) :
    ∀ (games : List PyGame) (m : List (String × BuzzResult)) (g : PyGame),
      collectEntries scores games = some m → g ∈ games →
      ∀ r : BuzzResult, clampEntry scores g = some (g.game_id, r) → (g.game_id, r) ∈ m := by
  intro games
  induction games with
  | nil => intro m g _ hg; exact absurd hg (by simp)
  | cons g0 rest ih =>
    intro m g hm hg r hr
    unfold collectEntries at hm
    cases hc : clampEntry scores g0 with
    | none => rw [hc] at hm; exact absurd hm (by simp)
    | some e =>
      rw [hc] at hm
      cases ht : collectEntries scores rest with
      | none => rw [ht] at hm; exact absurd hm (by simp)
      | some tail =>
        rw [ht] at hm
        simp only [Option.some.injEq] at hm
        subst hm
        rcases List.mem_cons.mp hg with hge | hgt
        · subst hge
          rw [hr] at hc
          injection hc with hc
          rw [hc]
          exact List.Mem.head _
        · exact List.Mem.tail _ (ih tail g ht hgt r hr)

end BuzzScorer

namespace BallDontLieClient

lemma gamesFromData_filter_map (game_date : String) :
    ∀ data : List BdlGame,
      gamesFromData game_date data
        = (data.filter (fun g => g.status == "Final")).map (toGameInfo game_date) := by
  intro data
  induction data with
  | nil => rfl
  | cons g rest ih =>
    unfold gamesFromData
    by_cases hs : g.status = "Final"
    · simp [hs, ih]
    · simp [hs, ih]

lemma gamesFromData_mem (game_date : String) (data : List BdlGame) (gi : GameInfo)
    (hgi : gi ∈ gamesFromData game_date data) :
    ∃ g ∈ data, g.status = "Final" ∧ gi = toGameInfo game_date g := by
  rw [gamesFromData_filter_map] at hgi
  obtain ⟨g, hgmem, hgi⟩ := List.mem_map.mp hgi
  refine ⟨g, List.mem_of_mem_filter hgmem, ?_, hgi.symm⟩
  have := List.of_mem_filter hgmem
  exact of_decide_eq_true (by simpa using this)

end BallDontLieClient

/-- Claim C1: `_calculate_lead_changes` counts exactly the transitions from
one strict leader to the other strict leader of the chronological snapshot
sequence — formalized as equality with the adjacent-change count of the
strict-leader subsequence (ties dropped, so transitions into or out of a tie
never count, and the first strict lead contributes nothing) — and the empty
list yields 0, `[(0,0),(2,0),(2,2),(2,5)]` yields exactly 1, and a sequence
alternating the strict leader six times yields 5. -/
theorem lead_changes_counts_strict_transitions :
    (∀ actions : List (Int × Int),
      NBAClient.calculate_lead_changes actions =
        NBAClient.leaderTransitions (NBAClient.strictLeaders actions))
    ∧ NBAClient.calculate_lead_changes [] = 0
    ∧ NBAClient.calculate_lead_changes [(0, 0), (2, 0), (2, 2), (2, 5)] = 1
    ∧ NBAClient.calculate_lead_changes [(0, 2), (3, 2), (3, 5), (8, 5), (8, 10), (13, 10)] = 5 := by
  refine ⟨fun actions => ?_, rfl, rfl, rfl⟩
  unfold NBAClient.calculate_lead_changes
  rw [NBAClient.leadLoop_none]
  exact Nat.zero_add _

/-- Claim C2: the backup adapter's `_estimate_lead_changes(h, v)` is the
stepped function of the margin `|h - v|`: 15 for margin at most 3, 10 up to
5, 5 up to 10, 2 up to 15, else 0 — with the exact values at the boundary
margins 3, 5, 10 and 15. -/
theorem estimate_lead_changes_steps :
    (∀ h v : Int, 0 ≤ h → 0 ≤ v →
      (|h - v| ≤ 3 → BallDontLieClient.estimate_lead_changes h v = 15)
      ∧ (3 < |h - v| → |h - v| ≤ 5 → BallDontLieClient.estimate_lead_changes h v = 10)
      ∧ (5 < |h - v| → |h - v| ≤ 10 → BallDontLieClient.estimate_lead_changes h v = 5)
      ∧ (10 < |h - v| → |h - v| ≤ 15 → BallDontLieClient.estimate_lead_changes h v = 2)
      ∧ (15 < |h - v| → BallDontLieClient.estimate_lead_changes h v = 0))
    ∧ BallDontLieClient.estimate_lead_changes 3 0 = 15
    ∧ BallDontLieClient.estimate_lead_changes 5 0 = 10
    ∧ BallDontLieClient.estimate_lead_changes 10 0 = 5
    ∧ BallDontLieClient.estimate_lead_changes 15 0 = 2
    ∧ BallDontLieClient.estimate_lead_changes 16 0 = 0 := by
  refine ⟨fun h v _ _ => ?_, rfl, rfl, rfl, rfl, rfl⟩
  simp only [BallDontLieClient.estimate_lead_changes]
  refine ⟨fun h1 => ?_, fun h1 h2 => ?_, fun h1 h2 => ?_, fun h1 h2 => ?_, fun h1 => ?_⟩ <;>
    split_ifs <;> omega

/-- Witness for C2: the theorem applied at the concrete scores (4, 0)
(margin 4, second step) and (118, 115) (margin 3, first step). -/
theorem estimate_lead_changes_steps_witness :
    BallDontLieClient.estimate_lead_changes 4 0 = 10
    ∧ BallDontLieClient.estimate_lead_changes 118 115 = 15 :=
  ⟨(estimate_lead_changes_steps.1 4 0 (by norm_num) (by norm_num)).2.1
      (by norm_num) (by norm_num),
   (estimate_lead_changes_steps.1 118 115 (by norm_num) (by norm_num)).1 (by norm_num)⟩

/-- Claim C3: every buzz entry `_parse_response` produces has a score in
`[0, 40]`; a raw score of 100 clamps to 40, a raw score of -5 clamps to 0,
and a game id absent from the decoded object defaults to score 0 with empty
reasoning. -/
theorem parse_response_clamps_scores :
    (∀ (decoded : Option (List (String × JsonVal))) (games : List BuzzScorer.PyGame)
        (m : List (String × BuzzScorer.BuzzResult)),
      BuzzScorer.parse_response decoded games = some m →
      ∀ p ∈ m, 0 ≤ p.2.score ∧ p.2.score ≤ 40)
    ∧ BuzzScorer.parse_response (some [("g1", .obj [("score", .num 100)])]) [⟨"g1"⟩]
        = some [("g1", ⟨40, .str ""⟩)]
    ∧ BuzzScorer.parse_response (some [("g1", .obj [("score", .num (-5))])]) [⟨"g1"⟩]
        = some [("g1", ⟨0, .str ""⟩)]
    ∧ BuzzScorer.parse_response (some [("g1", .obj [("score", .num 12)])]) [⟨"g1"⟩, ⟨"g2"⟩]
        = some [("g1", ⟨12, .str ""⟩), ("g2", ⟨0, .str ""⟩)] := by
  refine ⟨?_, rfl, rfl, rfl⟩
  intro decoded games m hm p hp
  cases decoded with
  | none =>
    unfold BuzzScorer.parse_response at hm
    injection hm with hm
    subst hm
    have h0 := BuzzScorer.zeroEntries_score games p hp
    rw [h0]
    norm_num
  | some scores =>
    have := BuzzScorer.collectEntries_bounds scores games m hm p hp
    simpa [BuzzScorer.MAX_BUZZ_SCORE] using this

/-- Witness for C3: the universal part applied to the all-default decode
outcome on a one-game batch. -/
theorem parse_response_clamps_scores_witness :
    0 ≤ (BuzzScorer.BuzzResult.mk 0 (.str "")).score
    ∧ (BuzzScorer.BuzzResult.mk 0 (.str "")).score ≤ 40 :=
  parse_response_clamps_scores.1 none [⟨"g1"⟩] (BuzzScorer.zeroEntries [⟨"g1"⟩]) rfl
    ("g1", ⟨0, .str ""⟩) (List.Mem.head _)

/-- Counterexample to C4 as stated: with game `g1` carrying a malformed
(non-numeric) score field and `g2` carrying score 20 in the same decoded
reply, the whole batch degrades to zeros — `g2` does not keep its score 20,
because `float` raises inside the parse loop and `score_games` catches the
exception batch-wide. -/
theorem malformed_score_counterexample :
    BuzzScorer.score_games true (.responded (some malformedBatchScores)) malformedBatchGames
      = [("g1", ⟨0, .str ""⟩), ("g2", ⟨0, .str ""⟩)]
    ∧ (List.lookup "g2"
        (BuzzScorer.score_games true (.responded (some malformedBatchScores))
          malformedBatchGames)).map BuzzScorer.BuzzResult.score = some 0
    ∧ ((0 : ℚ) = 20 → False) :=
  ⟨rfl, rfl, by norm_num⟩

/-- Amended C4: in a parse run that completes, each game's output entry is
determined by its own response entry alone — an entry that is not a JSON
object degrades only its own game to score 0 and empty reasoning, while every
game whose response entry carries a numeric score `q` keeps exactly the
clamped value of `q` (together: the non-object entry degrades only itself and
the other games keep the scores given in the response); but a malformed score
field inside an entry — one `float` rejects — aborts the parse loop and
`score_games` then returns the all-zero mapping for the whole batch. -/
theorem malformed_score_amended :
    (∀ (scores : List (String × JsonVal)) (games : List BuzzScorer.PyGame)
        (m : List (String × BuzzScorer.BuzzResult)) (g : BuzzScorer.PyGame),
      BuzzScorer.collectEntries scores games = some m → g ∈ games →
      (dictGetD scores g.game_id (.obj [])).isDict = false →
      (g.game_id, (⟨0, .str ""⟩ : BuzzScorer.BuzzResult)) ∈ m)
    ∧ (∀ (scores : List (String × JsonVal)) (games : List BuzzScorer.PyGame)
        (m : List (String × BuzzScorer.BuzzResult)) (g' : BuzzScorer.PyGame) (q : ℚ),
      BuzzScorer.collectEntries scores games = some m → g' ∈ games →
      BuzzScorer.entryScore (dictGetD scores g'.game_id (.obj [])) = .num q →
      (g'.game_id,
        (⟨max 0 (min BuzzScorer.MAX_BUZZ_SCORE q),
          BuzzScorer.entryReasoning (dictGetD scores g'.game_id (.obj []))⟩
          : BuzzScorer.BuzzResult)) ∈ m)
    ∧ (∀ (scores : List (String × JsonVal)) (games : List BuzzScorer.PyGame)
        (g : BuzzScorer.PyGame), g ∈ games →
      BuzzScorer.pyFloat (BuzzScorer.entryScore (dictGetD scores g.game_id (.obj []))) = none →
      BuzzScorer.score_games true (.responded (some scores)) games
        = BuzzScorer.zeroEntries games) := by
  refine ⟨?_, ?_, ?_⟩
  · intro scores games m g hm hg hd
    exact BuzzScorer.collectEntries_member scores games m g hm hg _
      (BuzzScorer.clampEntry_nonDict scores g hd)
  · intro scores games m g' q hm hg hq
    exact BuzzScorer.collectEntries_member scores games m g' hm hg _
      (BuzzScorer.clampEntry_numScore scores g' q hq)
  · intro scores games g hg hf
    have hce : BuzzScorer.clampEntry scores g = none := by
      unfold BuzzScorer.clampEntry
      rw [hf]
    have habort := BuzzScorer.collectEntries_abort scores games g hg hce
    have hne : games.isEmpty = false := by
      cases games with
      | nil => exact absurd hg (by simp)
      | cons g0 rest => rfl
    unfold BuzzScorer.score_games
    simp [hne, BuzzScorer.parse_response, habort]

/-- Witness for the amended C4, on the two-game batch whose `g1` entry is a
non-object and whose `g2` entry carries score 20: the parse completes with
`g1` holding the default entry while its sibling `g2` keeps the response
score 20; and the batch with a `float`-rejected score field collapses to the
zero mapping. -/
theorem malformed_score_amended_witness :
    (("g1", (⟨0, .str ""⟩ : BuzzScorer.BuzzResult)) ∈ isolatedBatchResult)
    ∧ (("g2", (⟨20, .str "fine"⟩ : BuzzScorer.BuzzResult)) ∈ isolatedBatchResult)
    ∧ BuzzScorer.score_games true (.responded (some malformedBatchScores)) malformedBatchGames
        = BuzzScorer.zeroEntries malformedBatchGames :=
  ⟨malformed_score_amended.1 isolatedBatchScores isolatedBatchGames
      isolatedBatchResult ⟨"g1"⟩ rfl (List.Mem.head _) rfl,
   malformed_score_amended.2.1 isolatedBatchScores isolatedBatchGames
      isolatedBatchResult ⟨"g2"⟩ 20 rfl (List.Mem.tail _ (List.Mem.head _)) rfl,
   malformed_score_amended.2.2 malformedBatchScores malformedBatchGames ⟨"g1"⟩
      (List.Mem.head _) rfl⟩

/-- Claim C5: `score_games` never propagates a failure — with no credential
it returns the zero mapping over the inputs, on an empty batch it returns the
empty mapping (whatever the credential state), and when the provider call
raises it returns the zero mapping instead of raising (the embedding is a
total function, so every branch returns). -/
theorem score_games_never_fails :
    ∀ (outcome : BuzzScorer.ProviderOutcome) (games : List BuzzScorer.PyGame),
      BuzzScorer.score_games false outcome games = BuzzScorer.zeroEntries games
      ∧ (∀ a : Bool, BuzzScorer.score_games a outcome [] = [])
      ∧ BuzzScorer.score_games true .raised games = BuzzScorer.zeroEntries games := by
  intro outcome games
  refine ⟨rfl, fun a => ?_, ?_⟩
  · cases a <;> rfl
  · cases games <;> rfl

/-- Claim C6: an integer `days` outside 1..30 makes the `/api/best-game`
handler return the validation-error response at once, independently of the
recommender — the same response for every `recommend` function, so no
upstream fetch is consulted. -/
theorem days_validation_rejects (R : Type) :
    ∀ (days : Int) (fav : Option String)
      (recommend recommend' : Int → Option String → Except String (Option R)),
      days < 1 ∨ days > 30 →
      ApiServer.get_best_game days fav recommend
          = .errorResp "Days must be between 1 and 30" 400
      ∧ ApiServer.get_best_game days fav recommend
          = ApiServer.get_best_game days fav recommend' := by
  intro days fav recommend recommend' hdays
  constructor
  · simp only [ApiServer.get_best_game, if_pos hdays]
  · simp only [ApiServer.get_best_game, if_pos hdays]

/-- Witness for C6: the theorem applied at days = 0 and days = 31. -/
theorem days_validation_rejects_witness :
    ApiServer.get_best_game 0 none (fun _ _ => (Except.ok none : Except String (Option Unit)))
        = .errorResp "Days must be between 1 and 30" 400
    ∧ ApiServer.get_best_game 31 none (fun _ _ => (Except.ok none : Except String (Option Unit)))
        = .errorResp "Days must be between 1 and 30" 400 :=
  ⟨(days_validation_rejects Unit 0 none (fun _ _ => Except.ok none)
      (fun _ _ => Except.ok none) (Or.inl (by norm_num))).1,
   (days_validation_rejects Unit 31 none (fun _ _ => Except.ok none)
      (fun _ _ => Except.ok none) (Or.inr (by norm_num))).1⟩

/-- Counterexample to C7 as stated: at the adapter boundary a failed upstream
request for a date produces exactly the same empty list as a successful fetch
of a day with zero completed games — the failure is silently converted into
an empty result, not surfaced distinctly. -/
theorem upstream_failure_counterexample :
    BallDontLieClient.get_games_by_date "2024-01-15" (.error ())
      = BallDontLieClient.get_games_by_date "2024-01-15" (.ok [])
    ∧ BallDontLieClient.get_games_by_date "2024-01-15" (.error ()) = [] :=
  ⟨rfl, rfl⟩

/-- Amended C7: the BallDontLie adapter converts a per-date fetch failure into
an empty list, indistinguishable from a zero-game day; a distinct
upstream-unavailable condition exists only at the web layer, whose
`/recommend` handler maps the `NBA_API_TIMEOUT` error code to HTTP 503,
distinct from the 404 used for `NO_GAMES`. -/
theorem upstream_failure_amended :
    (∀ d : String, BallDontLieClient.get_games_by_date d (.error ()) = [])
    ∧ WebApp.errorStatus "NBA_API_TIMEOUT" = 503
    ∧ WebApp.errorStatus "NO_GAMES" = 404
    ∧ WebApp.errorStatus "NBA_API_TIMEOUT" ≠ WebApp.errorStatus "NO_GAMES" := by
  refine ⟨fun d => rfl, rfl, rfl, by decide⟩

/-- Claim C8: every normalized game record the adapter produces satisfies
`total_points = home.score + away.score` and
`final_margin = |home.score - away.score|`, for every upstream input (so the
derived fields depend only on the two team scores, never on any upstream
aggregate field). -/
theorem derived_totals (game_date : String)
    (outcome : Except Unit (List BallDontLieClient.BdlGame)) :
    ∀ gi ∈ BallDontLieClient.get_games_by_date game_date outcome,
      gi.total_points = gi.home_team.score + gi.away_team.score
      ∧ gi.final_margin = |gi.home_team.score - gi.away_team.score| := by
  intro gi hgi
  cases outcome with
  | error e => exact absurd hgi (by simp [BallDontLieClient.get_games_by_date])
  | ok data =>
    obtain ⟨g, -, -, hgi⟩ := BallDontLieClient.gamesFromData_mem game_date data gi hgi
    subst hgi
    exact ⟨rfl, rfl⟩

/-- Witness for C8: the theorem applied to the record built from the
LAL 118 - BOS 115 fixture game. -/
theorem derived_totals_witness :
    (BallDontLieClient.toGameInfo "2024-01-15" sampleFinalGame).total_points
        = (BallDontLieClient.toGameInfo "2024-01-15" sampleFinalGame).home_team.score
          + (BallDontLieClient.toGameInfo "2024-01-15" sampleFinalGame).away_team.score
    ∧ (BallDontLieClient.toGameInfo "2024-01-15" sampleFinalGame).final_margin
        = |(BallDontLieClient.toGameInfo "2024-01-15" sampleFinalGame).home_team.score
            - (BallDontLieClient.toGameInfo "2024-01-15" sampleFinalGame).away_team.score| :=
  derived_totals "2024-01-15" (.ok [sampleFinalGame])
    (BallDontLieClient.toGameInfo "2024-01-15" sampleFinalGame) (by decide)

/-- Claim C9: the adapter returns exactly the upstream games whose status is
`'Final'`, in order — the result equals the filter-then-normalize of the
upstream list, and every returned record originates from a `'Final'` upstream
game. -/
theorem only_final_games_included (game_date : String)
    (data : List BallDontLieClient.BdlGame) :
    BallDontLieClient.get_games_by_date game_date (.ok data)
      = (data.filter (fun g => g.status == "Final")).map
          (BallDontLieClient.toGameInfo game_date)
    ∧ ∀ gi ∈ BallDontLieClient.get_games_by_date game_date (.ok data),
        ∃ g ∈ data, g.status = "Final" ∧ gi = BallDontLieClient.toGameInfo game_date g := by
  constructor
  · exact BallDontLieClient.gamesFromData_filter_map game_date data
  · intro gi hgi
    exact BallDontLieClient.gamesFromData_mem game_date data gi hgi

/-- Witness for C9: the membership part applied to a batch holding one Final
game and one in-progress game. -/
theorem only_final_games_included_witness :
    ∃ g ∈ [sampleFinalGame, sampleLiveGame], g.status = "Final"
      ∧ BallDontLieClient.toGameInfo "2024-01-15" sampleFinalGame
          = BallDontLieClient.toGameInfo "2024-01-15" g :=
  (only_final_games_included "2024-01-15" [sampleFinalGame, sampleLiveGame]).2
    (BallDontLieClient.toGameInfo "2024-01-15" sampleFinalGame) (by decide)

/-- Claim C10: in every branch of `score_games` the keys of the returned
mapping are exactly the `game_id`s of the input games, in order — so every
input game gets an entry and ids present only in the provider reply are
ignored. -/
theorem score_games_keys :
    ∀ (a : Bool) (outcome : BuzzScorer.ProviderOutcome) (games : List BuzzScorer.PyGame),
      (BuzzScorer.score_games a outcome games).map Prod.fst
        = games.map BuzzScorer.PyGame.game_id := by
  intro a outcome games
  cases a with
  | false => exact BuzzScorer.zeroEntries_keys games
  | true =>
    cases games with
    | nil => rfl
    | cons g0 rest =>
      cases outcome with
      | raised => exact BuzzScorer.zeroEntries_keys (g0 :: rest)
      | responded decoded =>
        cases decoded with
        | none => exact BuzzScorer.zeroEntries_keys (g0 :: rest)
        | some scores =>
          cases hce : BuzzScorer.collectEntries scores (g0 :: rest) with
          | none =>
            simp only [BuzzScorer.score_games, BuzzScorer.parse_response, hce,
              List.isEmpty_cons, if_neg (by simp : ¬(true = false)), if_neg Bool.false_ne_true]
            exact BuzzScorer.zeroEntries_keys (g0 :: rest)
          | some m =>
            simp only [BuzzScorer.score_games, BuzzScorer.parse_response, hce,
              List.isEmpty_cons, if_neg (by simp : ¬(true = false)), if_neg Bool.false_ne_true]
            exact BuzzScorer.collectEntries_keys scores (g0 :: rest) m hce

end NbaRec
